import Mathlib

/-!
Verification of the tts-api-server request-handling core (src/main.rs and
src/backend/mod.rs) against its natural-language specification.

Shallow embedding conventions:
- hyper header values are byte sequences whose to_str conversion may fail;
  they are modelled by the inductive HeaderValue below.
- The request handler handle_request (main.rs lines 145-231) is modelled as a
  function returning Option (Response x List LogRecord): the none result
  models a panic of the handler (an unwrap on an Err or None value), and the
  list collects the structured log records the handler emits, in order.
- The per-variant backend modules (src/backend/piper.rs, src/backend/gpt_sovits.rs)
  are external collaborators not present under src/; their handlers are taken
  as opaque function parameters, and the routing that chooses between them
  (src/backend/mod.rs, handle_llama_request) is embedded as a function into an
  outcome type.
- Rust machine integers are Nat with explicit bounds where overflow matters
  (u64 parsing checks the value against 2 ^ 64).
-/

namespace Tts

/-! ### Character-list utilities mirroring the Rust str operations used by the code -/

/-- Splitting a character list at every occurrence of the single separator
character sep, keeping empty fields, exactly like the Rust pattern
s.split(sep-as-single-char-string): the result always has one more element
than the number of separator occurrences. -/
def splitOnChar (sep : Char) : List Char → List (List Char)
  | [] => [[]]
  | c :: cs =>
    match splitOnChar sep cs with
    | [] => [[]]
    | f :: rest => if c = sep then [] :: f :: rest else (c :: f) :: rest

/-- Boolean list-prefix test, mirroring Rust str::starts_with on the
underlying character sequences. -/
def listPrefixOf : List Char → List Char → Bool
  | [], _ => true
  | _ :: _, [] => false
  | a :: as, b :: bs => a == b && listPrefixOf as bs

/-- Boolean contiguous-sublist test: does the needle occur inside the
haystack. Used to state that a response body carries a given path. -/
def hasSubList (needle : List Char) : List Char → Bool
  | [] => listPrefixOf needle []
  | c :: t => listPrefixOf needle (c :: t) || hasSubList needle t

/-- String wrapper of hasSubList: does hay contain needle as a substring. -/
def strHasSub (hay needle : String) : Bool :=
  hasSubList needle.data hay.data

/-- String wrapper of listPrefixOf: Rust str::starts_with. -/
def strStartsWith (s pre : String) : Bool :=
  listPrefixOf pre.data s.data

/-! ### Log-level model (main.rs lines 233-296 and the log crate filter) -/

/-- The LogLevel enum of main.rs (lines 237-258): a six-value severity. -/
inductive LogLevel where
  | trace | debug | info | warn | error | critical
  deriving DecidableEq, Fintype

/-- The log crate LevelFilter values, in their numeric order
(Off = 0 up to Trace = 5). -/
inductive LevelFilter where
  | off | error | warn | info | debug | trace
  deriving DecidableEq

/-- The From LogLevel for log LevelFilter conversion (main.rs lines 259-270):
note that critical is sent to the error filter. -/
def LogLevel.toLevelFilter : LogLevel → LevelFilter
  | .trace => .trace
  | .debug => .debug
  | .info => .info
  | .warn => .warn
  | .error => .error
  | .critical => .error

/-- The log crate Level of an individual record (Error = 1 up to Trace = 5). -/
inductive RecordLevel where
  | error | warn | info | debug | trace
  deriving DecidableEq, Fintype

/-- Numeric value of a record level, as in the log crate. -/
def RecordLevel.toNat : RecordLevel → Nat
  | .error => 1
  | .warn => 2
  | .info => 3
  | .debug => 4
  | .trace => 5

/-- Numeric value of a level filter, as in the log crate. -/
def LevelFilter.toNat : LevelFilter → Nat
  | .off => 0
  | .error => 1
  | .warn => 2
  | .info => 3
  | .debug => 4
  | .trace => 5

/-- The log crate admission test: a record at level l is emitted iff
l.toNat is at most the configured max filter (log::set_max_level,
main.rs line 72, combined with the log macros' enabled check). -/
def admitsRecord (f : LevelFilter) (l : RecordLevel) : Bool :=
  l.toNat ≤ f.toNat

/-! ### HTTP data model -/

/-- A hyper HeaderValue is an octet sequence; its to_str conversion succeeds
exactly when the bytes are visible ASCII. The model keeps only what the code
observes: valid s is a value whose to_str returns s, invalid is a value whose
to_str fails (such a value necessarily holds at least one byte, hence is
never empty). -/
inductive HeaderValue where
  | valid (s : String)
  | invalid
  deriving DecidableEq

/-- hyper HeaderValue::is_empty: byte length zero, equivalently (for a
convertible value) an empty character sequence; a value whose conversion
fails has at least one byte. -/
def HeaderValue.isEmpty : HeaderValue → Bool
  | .valid s => s.data.isEmpty
  | .invalid => false

/-- hyper HeaderValue::to_str, with the Err case as none. -/
def HeaderValue.toStr : HeaderValue → Option String
  | .valid s => some s
  | .invalid => none

/-- The request data observed by handle_request: method and version as the
strings the log formatting produces, the URI path, and the two headers the
code reads (authorization, content-length). The header map lookups of
main.rs lines 154 and 182 are modelled as these two optional fields. -/
structure Request where
  method : String
  path : String
  version : String
  authorization : Option HeaderValue
  contentLength : Option HeaderValue
  deriving DecidableEq

/-- The response data observed by the code: numeric status, version string as
formatted for the log, and the body as a string whose byte size is the
size_hint lower bound the telemetry reads. Freshly built hyper responses
carry version HTTP/1.1. -/
structure Response where
  status : Nat
  version : String
  body : String
  deriving DecidableEq

/-- Modelled from the spec: the error module (src/error.rs) is not present
under src/. Per the spec, an authorization failure yields an unauthorized
HTTP response (status 401) carrying a human-readable message as its body. -/
def error.unauthorized (msg : String) : Response :=
  { status := 401, version := "HTTP/1.1", body := msg }

/-- Modelled from the spec: the error module (src/error.rs) is not present
under src/. Per the spec, a routing miss yields a not-found response
(status 404) whose body is the message the caller passes in (the backend
passes the offending path, so the body carries that path). -/
def error.invalid_endpoint (msg : String) : Response :=
  { status := 404, version := "HTTP/1.1", body := msg }

/-! ### Structured log records (telemetry) -/

/-- Severity of an emitted record: the two log macros the handler uses. -/
inductive Severity where
  | info | error
  deriving DecidableEq

/-- Fields of the pre-dispatch request log block (main.rs lines 177-193):
method, endpoint path, protocol version, and, only when the method is POST,
the declared content length. -/
structure ReqLogRec where
  method : String
  path : String
  version : String
  contentLength : Option Nat
  deriving DecidableEq

/-- Fields of the post-dispatch response log block (main.rs lines 202-228):
version, body-size lower bound, numeric status, success flag, and, only in
the error-severity branch, the client-error and server-error flags. -/
structure RespLogRec where
  version : String
  bodySize : Nat
  status : Nat
  isSuccess : Bool
  errorFlags : Option (Bool × Bool)
  deriving DecidableEq

/-- One structured record per log block of handle_request: the API-key line
of the auth gate (main.rs line 165, info severity), the inbound request
block (info severity), and the outbound response block (info or error
severity depending on the status class). -/
inductive LogRecord where
  | apiKey (token : String)
  | inbound (r : ReqLogRec)
  | outbound (sev : Severity) (r : RespLogRec)
  deriving DecidableEq

/-- Whether a record is an outbound (response telemetry) record. -/
def LogRecord.isOutbound : LogRecord → Bool
  | .outbound _ _ => true
  | _ => false

/-- hyper StatusCode::is_success. -/
def isSuccessB (s : Nat) : Bool := 200 ≤ s && s < 300

/-- hyper StatusCode::is_client_error. -/
def isClientErrorB (s : Nat) : Bool := 400 ≤ s && s < 500

/-- hyper StatusCode::is_server_error. -/
def isServerErrorB (s : Nat) : Bool := 500 ≤ s && s < 600

/-- The outbound telemetry block (main.rs lines 201-228): info severity with
four fields when the status is below 400, error severity with the two extra
error flags otherwise. The body-size field is the size_hint lower bound,
which for the bodies built here is the byte length of the body string. -/
def outboundRecord (resp : Response) : LogRecord :=
  if resp.status < 400 then
    .outbound .info
      { version := resp.version, bodySize := resp.body.utf8ByteSize,
        status := resp.status, isSuccess := isSuccessB resp.status,
        errorFlags := none }
  else
    .outbound .error
      { version := resp.version, bodySize := resp.body.utf8ByteSize,
        status := resp.status, isSuccess := isSuccessB resp.status,
        errorFlags := some (isClientErrorB resp.status, isServerErrorB resp.status) }

/-! ### The auth gate and the pieces of handle_request (main.rs lines 145-231) -/

/-- Token extraction of main.rs line 164: auth_header.split(" ").nth(1)
with unwrap_or_default — the second field produced by splitting the header
value at every single space character, or the empty string when there is no
second field. -/
def extractToken (s : String) : String :=
  match splitOnChar ' ' s.data with
  | _ :: t :: _ => String.mk t
  | _ => ""

/-- Splitting at every whitespace character, keeping empty fields (helper for
the spec-side definition below). -/
def splitOnWs : List Char → List (List Char)
  | [] => [[]]
  | c :: cs =>
    match splitOnWs cs with
    | [] => [[]]
    | f :: rest => if c.isWhitespace then [] :: f :: rest else (c :: f) :: rest

/-- Modelled from the spec (for refinement comparison only, not used by the
embedding of the code): the spec words say the token is the second
whitespace-separated field, i.e. the second maximal run of non-whitespace
characters, whitespace of any kind and amount acting as the separator. -/
def specSecondWhitespaceField (s : String) : String :=
  match ((splitOnWs s.data).filter (fun f => !f.isEmpty)) with
  | _ :: t :: _ => String.mk t
  | _ => ""

/-- Rust u64::from_str (used at main.rs line 183): an optional single leading
plus sign, then one or more ASCII decimal digits, rejecting the empty digit
string and any value of 2 ^ 64 or more (positive overflow). -/
def parseU64 (s : String) : Option Nat :=
  let ds := match s.data with
    | '+' :: rest => rest
    | l => l
  if ds.isEmpty then none
  else if ds.all Char.isDigit then
    let n := ds.foldl (fun acc c => acc * 10 + (c.toNat - 48)) 0
    if n < 18446744073709551616 then some n else none
  else none

/-- The first-segment computation of main.rs lines 146-151: PathBuf iteration
over the request path skips the leading root component and yields the first
normal segment; a slash is prepended to it. For the origin-form paths hyper
produces (starting with a slash), PathBuf iteration drops empty segments and
single-dot segments, so the first segment is the first component that is
neither empty nor a dot, defaulting to the empty string. -/
def rootPath (p : String) : String :=
  let segs := (splitOnChar '/' p.data).filter (fun s => !(s.isEmpty || s == ['.']))
  String.mk ('/' :: (segs.headD []))

/-- The API-key gate of main.rs lines 153-174, run before any telemetry and
before routing. The ok result carries the log records the gate emitted (the
API-key info line when a non-empty convertible header was present); the
error result carries those records together with the early-return
unauthorized response. The gate allows the request when the header is
absent or empty, when no secret is configured, or when the extracted token
equals the configured secret. -/
def authGate (secret : Option String) (auth : Option HeaderValue) :
    Except (List LogRecord × Response) (List LogRecord) :=
  match auth with
  | none => .ok []
  | some hv =>
    if hv.isEmpty then .ok []
    else
      match hv.toStr with
      | none =>
        .error ([], error.unauthorized
          "Failed to get authorization header: failed to convert header to a str")
      | some s =>
        let api_key := extractToken s
        match secret with
        | some stored =>
          if api_key ≠ stored then
            .error ([.apiKey api_key], error.unauthorized "Invalid API key.")
          else .ok [.apiKey api_key]
        | none => .ok [.apiKey api_key]

/-- The content-length part of the request telemetry (main.rs lines 181-186):
for a POST request the declared content length is read from the header by
to_str().unwrap().parse().unwrap(), so a missing header logs 0, while a
non-convertible or non-numeric header value panics (the none result); for
any other method no content length is logged (some none). -/
def contentLengthLog (req : Request) : Option (Option Nat) :=
  if req.method = "POST" then
    match req.contentLength with
    | some hv =>
      match hv.toStr with
      | none => none
      | some s =>
        match parseU64 s with
        | none => none
        | some n => some (some n)
    | none => some (some 0)
  else some none

/-! ### The backend dispatcher (src/backend/mod.rs) -/

/-- The compile-time backend choice: the two cargo features piper and
gpt_sovits. Their mutual exclusion (the compile_error when both are enabled,
mod.rs lines 10-11) is embedded by this type having exactly these two
values: no value of the type enables both. -/
inductive Variant where
  | piper | gpt_sovits
  deriving DecidableEq

/-- Outcome of handle_llama_request (mod.rs lines 13-32): delegate to the
compiled variant's audio_speech_handler, delegate to the piper
files_handler, or answer not-found for the given path. -/
inductive BackendOutcome where
  | audioSpeech
  | files
  | invalidEndpoint (path : String)
  deriving DecidableEq

/-- handle_llama_request (mod.rs lines 13-32), per compiled variant: match on
the full request path; under piper the arms are /v1/audio/speech, /v1/files,
then a catch-all that serves files for any /v1/files/ prefix and otherwise
answers invalid_endpoint with the path; under gpt_sovits only the
/v1/audio/speech arm exists before the catch-all invalid_endpoint. -/
def handle_llama_request (v : Variant) (req : Request) : BackendOutcome :=
  match v with
  | .piper =>
    if req.path = "/v1/audio/speech" then .audioSpeech
    else if req.path = "/v1/files" then .files
    else if strStartsWith req.path "/v1/files/" then .files
    else .invalidEndpoint req.path
  | .gpt_sovits =>
    if req.path = "/v1/audio/speech" then .audioSpeech
    else .invalidEndpoint req.path

/-- The response produced by the backend dispatcher, with the two external
per-variant handlers (speech synthesis and file serving, implemented in the
backend modules not present under src/) taken as opaque parameters. -/
def backendResponse (v : Variant) (speech files : Request → Response)
    (req : Request) : Response :=
  match handle_llama_request v req with
  | .audioSpeech => speech req
  | .files => files req
  | .invalidEndpoint p => error.invalid_endpoint p

/-- Which paths match a concrete backend route of the given variant
(the non-catch-all behavior of handle_llama_request). -/
def matchesRoute (v : Variant) (p : String) : Bool :=
  match v with
  | .piper => p == "/v1/audio/speech" || p == "/v1/files" || strStartsWith p "/v1/files/"
  | .gpt_sovits => p == "/v1/audio/speech"

/-! ### handle_request (main.rs lines 145-231) -/

/-- The per-request pipeline of handle_request: auth gate first (its denial
returns the unauthorized response immediately, with only the gate's own log
records emitted); then the inbound request telemetry (whose content-length
unwraps may panic: the none result); then first-segment routing to the echo
body, the backend dispatcher, or the not-found fallback with a fixed
message; then the outbound response telemetry. The backend parameter is the
response function of the compiled dispatcher. -/
def handle_request (secret : Option String) (backend : Request → Response)
    (req : Request) : Option (Response × List LogRecord) :=
  match authGate secret req.authorization with
  | .error (logs, resp) => some (resp, logs)
  | .ok authLogs =>
    match contentLengthLog req with
    | none => none
    | some cl =>
      let inboundRec := LogRecord.inbound
        { method := req.method, path := req.path, version := req.version,
          contentLength := cl }
      let response :=
        if rootPath req.path = "/echo" then
          { status := 200, version := "HTTP/1.1", body := "echo test" }
        else if rootPath req.path = "/v1" then backend req
        else error.invalid_endpoint "The requested service endpoint is not found."
      some (response, authLogs ++ [inboundRec, outboundRecord response])

/-! ### Helper lemmas about the string utilities -/

theorem strData_append (a b : String) : (a ++ b).data = a.data ++ b.data := rfl

theorem splitOnChar_ne_nil (sep : Char) (l : List Char) : splitOnChar sep l ≠ [] := by
  cases l with
  | nil => simp [splitOnChar]
  | cons c cs =>
    simp only [splitOnChar]
    split
    · simp
    · split <;> simp

theorem splitOnChar_no_sep (sep : Char) (l : List Char) (h : sep ∉ l) :
    splitOnChar sep l = [l] := by
  induction l with
  | nil => rfl
  | cons c cs ih =>
    have hc : c ≠ sep := by
      rintro rfl
      exact h (List.mem_cons_self _ _)
    have hcs : sep ∉ cs := fun hm => h (List.mem_cons_of_mem _ hm)
    simp [splitOnChar, ih hcs, hc]

theorem splitOnChar_append (sep : Char) (a b : List Char) (ha : sep ∉ a) :
    splitOnChar sep (a ++ sep :: b) = a :: splitOnChar sep b := by
  induction a with
  | nil =>
    simp only [List.nil_append, splitOnChar]
    cases h : splitOnChar sep b with
    | nil => exact absurd h (splitOnChar_ne_nil sep b)
    | cons f rest => simp
  | cons c a2 ih =>
    have hc : c ≠ sep := by
      rintro rfl
      exact ha (List.mem_cons_self _ _)
    have ha2 : sep ∉ a2 := fun hm => ha (List.mem_cons_of_mem _ hm)
    simp only [List.cons_append, splitOnChar, List.append_eq]
    rw [ih ha2]
    simp [hc]

/-- Token extraction on a two-field header value: one single space between a
space-free scheme and a space-free token yields exactly the token. -/
theorem extractToken_two_fields (sch X : String)
    (h1 : ' ' ∉ sch.data) (h2 : ' ' ∉ X.data) :
    extractToken (sch ++ " " ++ X) = X := by
  have hdata : (sch ++ " " ++ X).data = sch.data ++ ' ' :: X.data := by
    rw [strData_append, strData_append]
    simp
  simp only [extractToken, hdata, splitOnChar_append ' ' sch.data X.data h1,
    splitOnChar_no_sep ' ' X.data h2]

/-- Token extraction with two consecutive spaces between scheme and token:
the second single-space field is the empty field between the two spaces. -/
theorem extractToken_double_space (sch X : String) (h1 : ' ' ∉ sch.data) :
    extractToken (sch ++ "  " ++ X) = "" := by
  have hdata : (sch ++ "  " ++ X).data = sch.data ++ ' ' :: (' ' :: X.data) := by
    rw [strData_append, strData_append]
    simp
  simp only [extractToken, hdata,
    splitOnChar_append ' ' sch.data (' ' :: X.data) h1, splitOnChar]
  cases h : splitOnChar ' ' X.data with
  | nil => exact absurd h (splitOnChar_ne_nil ' ' X.data)
  | cons f rest => simp

/-- A header value with no space character at all has no second field, so the
extracted token is the empty string. -/
theorem extractToken_no_space (v : String) (h : ' ' ∉ v.data) :
    extractToken v = "" := by
  simp [extractToken, splitOnChar_no_sep ' ' v.data h]

theorem listPrefixOf_refl (l : List Char) : listPrefixOf l l = true := by
  induction l with
  | nil => rfl
  | cons c cs ih => simp [listPrefixOf, ih]

/-- Every string contains itself as a substring. -/
theorem strHasSub_self (s : String) : strHasSub s s = true := by
  unfold strHasSub
  cases h : s.data with
  | nil => rfl
  | cons c t => simp [hasSubList, listPrefixOf_refl]

theorem strData_ne_nil (v : String) (h : v ≠ "") : v.data ≠ [] := by
  intro hd
  apply h
  cases v with
  | mk data =>
    simp only at hd
    subst hd
    rfl

theorem strIsEmpty_false (v : String) (h : v ≠ "") : v.data.isEmpty = false := by
  cases hd : v.data with
  | nil => exact absurd hd (strData_ne_nil v h)
  | cons c t => rfl

/-! ### Claim theorems -/

/-- C1: the spec requires every per-request error to be isolated to that
request's response, but a POST request whose content-length header value is
not a well-formed decimal integer, or is not convertible to a str, makes the
inbound-telemetry unwraps of main.rs line 183 panic, so the handler aborts
without producing any HTTP response (the none result models the panic). -/
theorem handle_request_panics_on_malformed_content_length :
    handle_request none (fun r => error.invalid_endpoint r.path)
      { method := "POST", path := "/echo", version := "HTTP/1.1",
        authorization := none, contentLength := some (.valid "abc") } = none ∧
    handle_request none (fun r => error.invalid_endpoint r.path)
      { method := "POST", path := "/echo", version := "HTTP/1.1",
        authorization := none, contentLength := some .invalid } = none := by
  exact ⟨by decide, by decide⟩

/-- C10: the LogLevel to LevelFilter conversion maps critical to the same
filter value as error, so the critical configuration admits exactly the same
records as the error configuration, and the conversion is injective on the
remaining levels. -/
theorem critical_filter_equals_error_filter :
    LogLevel.toLevelFilter .critical = LogLevel.toLevelFilter .error ∧
    (∀ l : RecordLevel,
      admitsRecord (LogLevel.toLevelFilter .critical) l =
        admitsRecord (LogLevel.toLevelFilter .error) l) ∧
    (∀ a b : LogLevel, a ≠ .critical → b ≠ .critical →
      a.toLevelFilter = b.toLevelFilter → a = b) := by
  refine ⟨rfl, by decide, by decide⟩

/-- Witness for C10 at concrete levels. -/
theorem critical_filter_equals_error_filter_witness :
    LogLevel.toLevelFilter .critical = LogLevel.toLevelFilter .error ∧
    admitsRecord (LogLevel.toLevelFilter .critical) .info =
      admitsRecord (LogLevel.toLevelFilter .error) .info ∧
    LogLevel.warn = LogLevel.warn :=
  ⟨critical_filter_equals_error_filter.1,
    critical_filter_equals_error_filter.2.1 .info,
    critical_filter_equals_error_filter.2.2 .warn .warn (by decide) (by decide) rfl⟩

/-- C3 counterexample: with secret abc123 configured, a GET request for /echo
carrying a wrong bearer token is answered by the auth gate with status 401,
not 200, because the auth gate runs before the router: the echo endpoint
does not bypass authentication. -/
theorem echo_denied_with_wrong_token :
    (handle_request (some "abc123") (fun r => error.invalid_endpoint r.path)
        { method := "GET", path := "/echo", version := "HTTP/1.1",
          authorization := some (.valid "Bearer wrong"), contentLength := none }).map
      (fun p => p.1.status) = some 401 ∧ (401 : Nat) ≠ 200 := by
  exact ⟨by decide, by decide⟩

/-- C4 counterexample: a request denied by the auth gate receives a response
with status 401 (at least 400), yet its log trace contains no inbound and no
outbound telemetry record at all (only the API-key line), so it is not the
case that every request has its response logged at error severity. -/
theorem no_response_log_on_auth_denial :
    handle_request (some "abc123") (fun r => error.invalid_endpoint r.path)
        { method := "GET", path := "/echo", version := "HTTP/1.1",
          authorization := some (.valid "Bearer wrong"), contentLength := none } =
      some (error.unauthorized "Invalid API key.", [.apiKey "wrong"]) ∧
    400 ≤ (error.unauthorized "Invalid API key.").status ∧
    ([LogRecord.apiKey "wrong"].all (fun r => !r.isOutbound)) = true := by
  exact ⟨by decide, by decide, by decide⟩

/-- C5 counterexample: for the request path /foo (first segment neither /echo
nor /v1) the router fallback response has status 404 but its body is the
fixed message, which does not contain the offending path /foo. -/
theorem router_fallback_body_lacks_path :
    (handle_request none (fun r => error.invalid_endpoint r.path)
        { method := "GET", path := "/foo", version := "HTTP/1.1",
          authorization := none, contentLength := none }).map
      (fun p => (p.1.status, p.1.body, strHasSub p.1.body "/foo")) =
      some (404, "The requested service endpoint is not found.", false) := by
  decide

/-- C8 counterexample: a tab, or a doubled space, between scheme and token is
not treated as the code's separator, so the extracted token differs from the
second whitespace-separated field the spec describes; with secret abc
configured the tab-separated header carrying the correct token is even
rejected. -/
theorem token_not_whitespace_field :
    extractToken "Bearer\tabc" = "" ∧
    specSecondWhitespaceField "Bearer\tabc" = "abc" ∧
    extractToken "Bearer  abc" = "" ∧
    specSecondWhitespaceField "Bearer  abc" = "abc" ∧
    authGate (some "abc") (some (.valid "Bearer\tabc")) =
      .error ([.apiKey ""], error.unauthorized "Invalid API key.") := by
  exact ⟨by decide, by decide, by decide, by decide, by rfl⟩

/-- C8 amended: the token compared against the secret is the second field
obtained by splitting the header value at single space characters only: for
a space-free scheme and token separated by exactly one space it is the
token, while a doubled space yields the empty field between the two spaces
(and non-space whitespace is no separator at all, per the counterexample). -/
theorem token_second_single_space_field (sch X : String)
    (h1 : ' ' ∉ sch.data) (h2 : ' ' ∉ X.data) :
    extractToken (sch ++ " " ++ X) = X ∧
    extractToken (sch ++ "  " ++ X) = "" :=
  ⟨extractToken_two_fields sch X h1 h2, extractToken_double_space sch X h1⟩

/-- Witness for C8 at a concrete scheme and token. -/
theorem token_second_single_space_field_witness :
    extractToken ("Bearer" ++ " " ++ "k") = "k" ∧
    extractToken ("Bearer" ++ "  " ++ "k") = "" :=
  token_second_single_space_field "Bearer" "k" (by decide) (by decide)

/-- Evaluation of the auth gate on a well-formed bearer header with a
configured secret (helper shared by several claim proofs). -/
theorem authGate_bearer_eval (S X : String) (hsp : ' ' ∉ X.data) :
    authGate (some S) (some (.valid ("Bearer " ++ X))) =
      if X ≠ S then .error ([.apiKey X], error.unauthorized "Invalid API key.")
      else .ok [.apiKey X] := by
  have htok : extractToken ("Bearer " ++ X) = X := by
    have hb : ("Bearer " : String) ++ X = "Bearer" ++ " " ++ X := rfl
    rw [hb]
    exact extractToken_two_fields "Bearer" X (by decide) hsp
  have h0 : ("Bearer " ++ X).data.isEmpty = false := by
    rw [strData_append]
    rfl
  simp only [authGate, HeaderValue.isEmpty, HeaderValue.toStr, h0, htok,
    Bool.false_eq_true, if_false]

/-- C2: with secret S configured, a request whose authorization header is
the non-empty value Bearer-space-X (X a space-free token) passes the auth
gate, and thereby reaches telemetry, router and dispatch, exactly when X
equals S; on a mismatch the handler returns the unauthorized response
immediately, for every backend, without dispatching or logging telemetry. -/
theorem bearer_allowed_iff_matches_secret (S X : String)
    (_hne : X ≠ "") (hsp : ' ' ∉ X.data) :
    (authGate (some S) (some (.valid ("Bearer " ++ X))) = .ok [.apiKey X] ↔ X = S) ∧
    (X ≠ S → ∀ (backend : Request → Response) (req : Request),
      req.authorization = some (.valid ("Bearer " ++ X)) →
      handle_request (some S) backend req =
        some (error.unauthorized "Invalid API key.", [.apiKey X])) := by
  have hgate := authGate_bearer_eval S X hsp
  constructor
  · constructor
    · intro hok
      by_cases hXS : X = S
      · exact hXS
      · rw [hgate, if_pos hXS] at hok
        exact absurd hok (by simp)
    · intro hXS
      rw [hgate, if_neg (by simp [hXS])]
  · intro hXS backend req hreq
    unfold handle_request
    rw [hreq, hgate, if_pos hXS]

/-- Witness for C2 at the secret k and matching token k. -/
theorem bearer_allowed_iff_matches_secret_witness :
    authGate (some "k") (some (.valid ("Bearer " ++ "k"))) = .ok [.apiKey "k"] :=
  (bearer_allowed_iff_matches_secret "k" "k" (by decide) (by decide)).1.mpr rfl

/-- C9: with a secret configured and a non-empty authorization header value
that contains no space (hence no second space-separated field), the
extracted token is the empty string, so the request is denied as
unauthorized unless the configured secret is itself the empty string, in
which case the gate lets it through. -/
theorem missing_second_field_token_empty (S v : String)
    (hne : v ≠ "") (hsp : ' ' ∉ v.data) :
    extractToken v = "" ∧
    (S = "" → authGate (some S) (some (.valid v)) = .ok [.apiKey ""]) ∧
    (S ≠ "" → authGate (some S) (some (.valid v)) =
      .error ([.apiKey ""], error.unauthorized "Invalid API key.")) := by
  have htok := extractToken_no_space v hsp
  have h0 := strIsEmpty_false v hne
  refine ⟨htok, ?_, ?_⟩
  · intro hS
    subst hS
    simp [authGate, HeaderValue.isEmpty, HeaderValue.toStr, h0, htok]
  · intro hS
    have hs2 : ("" : String) ≠ S := fun h => hS h.symm
    simp [authGate, HeaderValue.isEmpty, HeaderValue.toStr, h0, htok, hs2]

/-- Witness for C9 at the header value Bearer and the secret s. -/
theorem missing_second_field_token_empty_witness :
    extractToken "Bearer" = "" ∧
    authGate (some "s") (some (.valid "Bearer")) =
      .error ([.apiKey ""], error.unauthorized "Invalid API key.") :=
  ⟨(missing_second_field_token_empty "s" "Bearer" (by decide) (by decide)).1,
    (missing_second_field_token_empty "s" "Bearer" (by decide) (by decide)).2.2
      (by decide)⟩

/-- C3 amended: for every request whose first path segment is /echo, provided
the request passes the auth gate (the gate runs first and is not bypassed)
and the inbound telemetry does not panic on a malformed POST content-length,
the response has status 200 and the fixed non-empty body, regardless of the
request method, the remaining headers and the compiled backend; the echo
endpoint bypasses only the backend dispatcher, not authentication. -/
theorem echo_ok_after_auth_gate (secret : Option String)
    (backend : Request → Response) (req : Request)
    (alogs : List LogRecord) (cl : Option Nat)
    (hroot : rootPath req.path = "/echo")
    (hauth : authGate secret req.authorization = .ok alogs)
    (hcl : contentLengthLog req = some cl) :
    handle_request secret backend req =
      some ({ status := 200, version := "HTTP/1.1", body := "echo test" },
        alogs ++
          [LogRecord.inbound
              { method := req.method, path := req.path, version := req.version,
                contentLength := cl },
            LogRecord.outbound .info
              { version := "HTTP/1.1", bodySize := 9, status := 200,
                isSuccess := true, errorFlags := none }]) ∧
    ("echo test" : String) ≠ "" := by
  refine ⟨?_, by decide⟩
  unfold handle_request
  rw [hauth, hcl]
  simp only [hroot, if_pos rfl]
  rfl

/-- Witness for C3 at a concrete GET request for /echo with no headers. -/
theorem echo_ok_after_auth_gate_witness :
    handle_request none (fun r => error.invalid_endpoint r.path)
        { method := "GET", path := "/echo", version := "HTTP/1.1",
          authorization := none, contentLength := none } =
      some ({ status := 200, version := "HTTP/1.1", body := "echo test" },
        [] ++
          [LogRecord.inbound
              { method := "GET", path := "/echo", version := "HTTP/1.1",
                contentLength := none },
            LogRecord.outbound .info
              { version := "HTTP/1.1", bodySize := 9, status := 200,
                isSuccess := true, errorFlags := none }]) ∧
    ("echo test" : String) ≠ "" :=
  echo_ok_after_auth_gate none (fun r => error.invalid_endpoint r.path)
    { method := "GET", path := "/echo", version := "HTTP/1.1",
      authorization := none, contentLength := none }
    [] none (by decide) rfl rfl

/-- C4 amended: for every request that passes the auth gate and whose inbound
telemetry does not panic, the handler logs the inbound record (method, path,
protocol version, and the declared content length exactly for POST, the only
write-bearing method of this API) before the outbound record, and after
dispatch logs the outbound record: at info severity with version, body-size
lower bound, numeric status and the success flag when the status is below
400, and at error severity with the same fields plus the client-error and
server-error flags otherwise. Requests denied by the auth gate receive no
telemetry at all (see the counterexample), which is what forces the
pass-the-gate hypothesis. -/
theorem telemetry_logs_around_dispatch (secret : Option String)
    (backend : Request → Response) (req : Request)
    (alogs : List LogRecord) (cl : Option Nat)
    (hauth : authGate secret req.authorization = .ok alogs)
    (hcl : contentLengthLog req = some cl) :
    ∃ resp : Response,
      handle_request secret backend req =
        some (resp, alogs ++
          [LogRecord.inbound
              { method := req.method, path := req.path, version := req.version,
                contentLength := cl },
            outboundRecord resp]) ∧
      (req.method = "POST" → ∃ n : Nat, cl = some n) ∧
      (req.method ≠ "POST" → cl = none) ∧
      (resp.status < 400 →
        outboundRecord resp = .outbound .info
          { version := resp.version, bodySize := resp.body.utf8ByteSize,
            status := resp.status, isSuccess := isSuccessB resp.status,
            errorFlags := none }) ∧
      (400 ≤ resp.status →
        outboundRecord resp = .outbound .error
          { version := resp.version, bodySize := resp.body.utf8ByteSize,
            status := resp.status, isSuccess := isSuccessB resp.status,
            errorFlags := some (isClientErrorB resp.status, isServerErrorB resp.status) }) := by
  refine ⟨if rootPath req.path = "/echo" then
      { status := 200, version := "HTTP/1.1", body := "echo test" }
    else if rootPath req.path = "/v1" then backend req
    else error.invalid_endpoint "The requested service endpoint is not found.",
    ?_, ?_, ?_, ?_, ?_⟩
  · unfold handle_request
    rw [hauth, hcl]
  · intro hpost
    simp only [contentLengthLog, if_pos hpost] at hcl
    split at hcl
    · split at hcl
      · exact absurd hcl (by simp)
      · split at hcl
        · exact absurd hcl (by simp)
        · exact ⟨_, (Option.some_inj.mp hcl).symm⟩
    · exact ⟨0, (Option.some_inj.mp hcl).symm⟩
  · intro hnp
    simp only [contentLengthLog, if_neg hnp] at hcl
    exact (Option.some_inj.mp hcl).symm
  · intro hlt
    simp [outboundRecord, hlt]
  · intro hge
    have hnl := Nat.not_lt.mpr hge
    simp [outboundRecord, hnl]

/-- Witness for C4 at a concrete GET request for /echo with no headers. -/
theorem telemetry_logs_around_dispatch_witness :
    ∃ resp : Response,
      handle_request none (fun r => error.invalid_endpoint r.path)
          { method := "GET", path := "/echo", version := "HTTP/1.1",
            authorization := none, contentLength := none } =
        some (resp, [] ++
          [LogRecord.inbound
              { method := "GET", path := "/echo", version := "HTTP/1.1",
                contentLength := none },
            outboundRecord resp]) ∧
      (("GET" : String) = "POST" → ∃ n : Nat, (none : Option Nat) = some n) ∧
      (("GET" : String) ≠ "POST" → (none : Option Nat) = none) ∧
      (resp.status < 400 →
        outboundRecord resp = .outbound .info
          { version := resp.version, bodySize := resp.body.utf8ByteSize,
            status := resp.status, isSuccess := isSuccessB resp.status,
            errorFlags := none }) ∧
      (400 ≤ resp.status →
        outboundRecord resp = .outbound .error
          { version := resp.version, bodySize := resp.body.utf8ByteSize,
            status := resp.status, isSuccess := isSuccessB resp.status,
            errorFlags := some (isClientErrorB resp.status, isServerErrorB resp.status) }) :=
  telemetry_logs_around_dispatch none (fun r => error.invalid_endpoint r.path)
    { method := "GET", path := "/echo", version := "HTTP/1.1",
      authorization := none, contentLength := none }
    [] none rfl rfl

/-- C5 amended: for every request whose first path segment is neither /echo
nor /v1, provided it passes the auth gate and the inbound telemetry does not
panic, the router returns the not-found response built from the fixed
message, whose body is that fixed message and not the offending path (see
the counterexample for a path absent from the body). -/
theorem router_fallback_fixed_message (secret : Option String)
    (backend : Request → Response) (req : Request)
    (alogs : List LogRecord) (cl : Option Nat)
    (h1 : rootPath req.path ≠ "/echo")
    (h2 : rootPath req.path ≠ "/v1")
    (hauth : authGate secret req.authorization = .ok alogs)
    (hcl : contentLengthLog req = some cl) :
    handle_request secret backend req =
      some (error.invalid_endpoint "The requested service endpoint is not found.",
        alogs ++
          [LogRecord.inbound
              { method := req.method, path := req.path, version := req.version,
                contentLength := cl },
            LogRecord.outbound .error
              { version := "HTTP/1.1", bodySize := 44, status := 404,
                isSuccess := false, errorFlags := some (true, false) }]) := by
  unfold handle_request
  rw [hauth, hcl]
  simp only [if_neg h1, if_neg h2]
  rfl

/-- Witness for C5 at a concrete GET request for /foo with no headers. -/
theorem router_fallback_fixed_message_witness :
    handle_request none (fun r => error.invalid_endpoint r.path)
        { method := "GET", path := "/foo", version := "HTTP/1.1",
          authorization := none, contentLength := none } =
      some (error.invalid_endpoint "The requested service endpoint is not found.",
        [] ++
          [LogRecord.inbound
              { method := "GET", path := "/foo", version := "HTTP/1.1",
                contentLength := none },
            LogRecord.outbound .error
              { version := "HTTP/1.1", bodySize := 44, status := 404,
                isSuccess := false, errorFlags := some (true, false) }]) :=
  router_fallback_fixed_message none (fun r => error.invalid_endpoint r.path)
    { method := "GET", path := "/foo", version := "HTTP/1.1",
      authorization := none, contentLength := none }
    [] none (by decide) (by decide) rfl rfl

/-- C6: under either compiled variant, a request whose path lies under /v1
but matches none of the variant's backend routes falls through to the
invalid-endpoint outcome, and the resulting response has the not-found
status 404 with the literal request path contained in its body. -/
theorem v1_unmatched_returns_not_found_with_path (v : Variant)
    (speech files : Request → Response) (req : Request)
    (_hv1 : strStartsWith req.path "/v1" = true)
    (hmiss : matchesRoute v req.path = false) :
    handle_llama_request v req = .invalidEndpoint req.path ∧
    backendResponse v speech files req = error.invalid_endpoint req.path ∧
    (backendResponse v speech files req).status = 404 ∧
    strHasSub (backendResponse v speech files req).body req.path = true := by
  have h1 : handle_llama_request v req = .invalidEndpoint req.path := by
    cases v <;>
      simp only [matchesRoute, Bool.or_eq_false_iff, beq_eq_false_iff_ne] at hmiss <;>
      simp [handle_llama_request, hmiss]
  have h2 : backendResponse v speech files req = error.invalid_endpoint req.path := by
    unfold backendResponse
    rw [h1]
  refine ⟨h1, h2, ?_, ?_⟩
  · rw [h2]
    rfl
  · rw [h2]
    exact strHasSub_self req.path

/-- Witness for C6 at the path /v1/unknown under the piper variant. -/
theorem v1_unmatched_returns_not_found_with_path_witness :
    handle_llama_request .piper
        { method := "GET", path := "/v1/unknown", version := "HTTP/1.1",
          authorization := none, contentLength := none } =
      .invalidEndpoint "/v1/unknown" ∧
    backendResponse .piper (fun r => error.invalid_endpoint r.path)
        (fun r => error.invalid_endpoint r.path)
        { method := "GET", path := "/v1/unknown", version := "HTTP/1.1",
          authorization := none, contentLength := none } =
      error.invalid_endpoint "/v1/unknown" ∧
    (backendResponse .piper (fun r => error.invalid_endpoint r.path)
        (fun r => error.invalid_endpoint r.path)
        { method := "GET", path := "/v1/unknown", version := "HTTP/1.1",
          authorization := none, contentLength := none }).status = 404 ∧
    strHasSub (backendResponse .piper (fun r => error.invalid_endpoint r.path)
        (fun r => error.invalid_endpoint r.path)
        { method := "GET", path := "/v1/unknown", version := "HTTP/1.1",
          authorization := none, contentLength := none }).body "/v1/unknown" = true :=
  v1_unmatched_returns_not_found_with_path .piper
    (fun r => error.invalid_endpoint r.path) (fun r => error.invalid_endpoint r.path)
    { method := "GET", path := "/v1/unknown", version := "HTTP/1.1",
      authorization := none, contentLength := none }
    (by decide) (by decide)

/-- C7: the variant type has exactly the two values piper and gpt_sovits (the
compile_error for enabling both features is embedded by the absence of any
both-variant value); under piper, the paths /v1/files and every path with
prefix /v1/files/ reach the file-serving operation, while under gpt_sovits
those same paths fall through to the not-found response; and the path
/v1/audio/speech reaches the synthesis operation under either variant. -/
theorem variant_route_dispatch :
    (∀ v : Variant, v = .piper ∨ v = .gpt_sovits) ∧
    (∀ (speech files : Request → Response) (req : Request),
      req.path = "/v1/files" ∨ strStartsWith req.path "/v1/files/" = true →
        handle_llama_request .piper req = .files ∧
        backendResponse .piper speech files req = files req ∧
        handle_llama_request .gpt_sovits req = .invalidEndpoint req.path ∧
        (backendResponse .gpt_sovits speech files req).status = 404) ∧
    (∀ (v : Variant) (speech files : Request → Response) (req : Request),
      req.path = "/v1/audio/speech" →
        handle_llama_request v req = .audioSpeech ∧
        backendResponse v speech files req = speech req) := by
  refine ⟨fun v => by cases v <;> simp, ?_, ?_⟩
  · intro speech files req h
    have hne : req.path ≠ "/v1/audio/speech" := by
      rcases h with h | h
      · rw [h]
        decide
      · intro he
        rw [he] at h
        exact absurd h (by decide)
    have hp : handle_llama_request .piper req = .files := by
      rcases h with h | h
      · simp [handle_llama_request, hne, h]
      · by_cases hf : req.path = "/v1/files"
        · simp [handle_llama_request, hne, hf]
        · simp [handle_llama_request, hne, hf, h]
    have hg : handle_llama_request .gpt_sovits req = .invalidEndpoint req.path := by
      simp [handle_llama_request, hne]
    refine ⟨hp, ?_, hg, ?_⟩
    · unfold backendResponse
      rw [hp]
    · unfold backendResponse
      rw [hg]
      rfl
  · intro v speech files req h
    have hv : handle_llama_request v req = .audioSpeech := by
      cases v <;> simp [handle_llama_request, h]
    refine ⟨hv, ?_⟩
    unfold backendResponse
    rw [hv]

/-- Witness for C7 at the concrete paths /v1/files and /v1/audio/speech. -/
theorem variant_route_dispatch_witness :
    handle_llama_request .piper
        { method := "GET", path := "/v1/files", version := "HTTP/1.1",
          authorization := none, contentLength := none } = .files ∧
    handle_llama_request .gpt_sovits
        { method := "GET", path := "/v1/files", version := "HTTP/1.1",
          authorization := none, contentLength := none } =
      .invalidEndpoint "/v1/files" ∧
    handle_llama_request .piper
        { method := "POST", path := "/v1/audio/speech", version := "HTTP/1.1",
          authorization := none, contentLength := none } = .audioSpeech :=
  ⟨(variant_route_dispatch.2.1 (fun r => error.invalid_endpoint r.path)
      (fun r => error.invalid_endpoint r.path)
      { method := "GET", path := "/v1/files", version := "HTTP/1.1",
        authorization := none, contentLength := none } (Or.inl rfl)).1,
    (variant_route_dispatch.2.1 (fun r => error.invalid_endpoint r.path)
      (fun r => error.invalid_endpoint r.path)
      { method := "GET", path := "/v1/files", version := "HTTP/1.1",
        authorization := none, contentLength := none } (Or.inl rfl)).2.2.1,
    (variant_route_dispatch.2.2 .piper (fun r => error.invalid_endpoint r.path)
      (fun r => error.invalid_endpoint r.path)
      { method := "POST", path := "/v1/audio/speech", version := "HTTP/1.1",
        authorization := none, contentLength := none } rfl).1⟩

end Tts
